import Mathlib

/-!
Verification development for the Civil Engineering Insight Studio repository.

The repository splits into a React frontend (present in the sources:
apiService.js, App, ImageUpload, AnalysisTypeSelector, ResultsDisplay) and a
Python/Flask analysis backend (structure_analyzer.py, nlp_analyzer.py,
image_utils.py, analysis_model.py, config.py) that is documented but whose
code is not in the source tree.  The frontend components are embedded directly
from their JavaScript source.  The analysis pipeline is modelled from the
specification (sections 3, 4, 6, 7 of spec.md).

Numeric model: the source computes scores in floating point; the model uses
exact fixed-point arithmetic — every score in [0,1] is represented by a
natural number of thousandths (scale 1000), and percentages by naturals in
0..100.  The bridge `unitValue` interprets a scaled score as the rational it
denotes, so the spec's interval statements can be expressed literally.
-/

namespace CivilInsight

/-- Fixed-point scale: the representation of the score 1.0. -/
def scaleOne : ℕ := 1000

/-- Clamp a scaled score to the represented unit interval [0, 1] (the lower
bound is inherent to ℕ). -/
def clampUnit (x : ℕ) : ℕ := min scaleOne x

/-- Clamp a percentage to 0..100 (the lower bound is inherent to ℕ). -/
def clampPercent (x : ℕ) : ℕ := min 100 x

/-- Rational denoted by a scaled score. -/
def unitValue (x : ℕ) : ℚ := (x : ℚ) / (scaleOne : ℚ)

theorem clampUnit_le (x : ℕ) : clampUnit x ≤ scaleOne := min_le_left _ _

theorem clampPercent_le (x : ℕ) : clampPercent x ≤ 100 := min_le_left _ _

theorem unitValue_nonneg (x : ℕ) : 0 ≤ unitValue x := by
  unfold unitValue
  positivity

theorem unitValue_le_one {x : ℕ} (h : x ≤ scaleOne) : unitValue x ≤ 1 := by
  unfold unitValue
  rw [div_le_one (by norm_num [scaleOne])]
  exact_mod_cast (by simpa [scaleOne] using h : x ≤ 1000)

/-- An RGB pixel with natural-number channels (0–255 in well-formed images). -/
structure Rgb where
  r : ℕ
  g : ℕ
  b : ℕ
deriving DecidableEq, Repr

/-- Modelled from the spec: the decoded image the caller hands to the core —
a pixel buffer in row-major order plus width and height metadata (spec section
6; the backend image decoding code is not in the source tree). -/
structure Image where
  width : ℕ
  height : ℕ
  pixels : List Rgb
deriving DecidableEq, Repr

/-- Absolute difference of naturals. -/
def natDist (a b : ℕ) : ℕ := max a b - min a b

/-- Chebyshev distance between two pixels, normalized to the fixed-point unit
scale (0 for equal pixels, scaleOne for extreme channel difference).  This is
the "perceptually-reasonable" color distance of the model. -/
def rgbDist (a b : Rgb) : ℕ :=
  max (natDist a.r b.r) (max (natDist a.g b.g) (natDist a.b b.b)) * scaleOne / 255

/-- Split a flat list into consecutive chunks of length `w` (fuel-indexed so
the recursion is structural); with fuel `l.length` this recovers the rows of a
row-major pixel buffer. -/
def chunksAux (w : ℕ) : ℕ → List Rgb → List (List Rgb)
  | 0, _ => []
  | _, [] => []
  | fuel + 1, l => l.take w :: chunksAux w fuel (l.drop w)

/-- Rows of a row-major image. -/
def rowsOf (img : Image) : List (List Rgb) :=
  chunksAux img.width img.pixels.length img.pixels

/-- Column `j` of a row-major image, read through `List.getD`. -/
def columnOf (img : Image) (j : ℕ) : List Rgb :=
  (List.range img.height).map (fun i => img.pixels.getD (i * img.width + j) ⟨0, 0, 0⟩)

/-- All columns of a row-major image. -/
def columnsOf (img : Image) : List (List Rgb) :=
  (List.range img.width).map (columnOf img)

/-- Gradient magnitudes between adjacent pixels of one row/column (scaled). -/
def adjacentDiffs : List Rgb → List ℕ
  | a :: b :: rest => rgbDist a b :: adjacentDiffs (b :: rest)
  | _ => []

/-- Mean of a list of naturals (0 for the empty list), truncated. -/
def listMean (l : List ℕ) : ℕ := if l.length = 0 then 0 else l.sum / l.length

/-- Modelled from the spec: the texture descriptor — local gradient magnitude
aggregated per region (one region per image row) into a signature vector; a
uniform image has only zero gradients and yields the degenerate empty
signature (spec section 4.1; image_utils.py is not in the source tree). -/
def textureSignature (img : Image) : List ℕ :=
  let grads := (rowsOf img).map adjacentDiffs
  if grads.flatten.all (fun d => d = 0) then [] else grads.map listMean

/-- A detected line segment: orientation in degrees (0 horizontal, 90
vertical), length in gradient steps, and the row/column index it came from. -/
structure Segment where
  orientation : ℕ
  length : ℕ
  track : ℕ
deriving DecidableEq, Repr

/-- Scaled gradient threshold above which two adjacent pixels count as an
edge (0.12 of the unit scale). -/
def edgeThreshold : ℕ := 120

/-- Edge flags along one row/column: true where the local gradient exceeds
the edge threshold. -/
def highFlags (line : List Rgb) : List Bool :=
  (adjacentDiffs line).map (fun d => decide (edgeThreshold < d))

/-- Lengths of the maximal runs of `true` in a Boolean list. -/
def runLengthsAux : List Bool → ℕ → List ℕ
  | [], acc => if acc = 0 then [] else [acc]
  | true :: rest, acc => runLengthsAux rest (acc + 1)
  | false :: rest, acc =>
      if acc = 0 then runLengthsAux rest 0 else acc :: runLengthsAux rest 0

/-- Lengths of the maximal edge runs along one row/column. -/
def runLengths (flags : List Bool) : List ℕ := runLengthsAux flags 0

/-- Minimal run length (in gradient steps) that counts as a line segment. -/
def minSegmentLength : ℕ := 2

/-- Segments of a fixed orientation extracted from a list of pixel lines. -/
def segmentsOfLines (orientation : ℕ) (lines : List (List Rgb)) : List Segment :=
  (lines.enum.map (fun p =>
      ((runLengths (highFlags p.2)).filter (fun n => minSegmentLength ≤ n)).map
        (fun n => Segment.mk orientation n p.1))).flatten

/-- Modelled from the spec: the geometric descriptor — edge segments with
orientation and length, extracted from an edge map along rows (horizontal
segments) and columns (vertical segments) (spec section 4.1; image_utils.py is
not in the source tree). -/
def detectSegments (img : Image) : List Segment :=
  segmentsOfLines 0 (rowsOf img) ++ segmentsOfLines 90 (columnsOf img)

/-- One color cluster: centroid, scaled share of the pixels it covers, and the
zone label derived from the originating pixels' dominant vertical position. -/
structure ColorCluster where
  centroid : Rgb
  share : ℕ
  zone : String
deriving DecidableEq, Repr

/-- Zone label of a color: compares the summed row indices of its pixels
against the image height without division (mean row in the upper, central or
lower third). -/
def zoneOfColor (img : Image) (c : Rgb) : String :=
  let rows := (img.pixels.enum.filter (fun p => p.2 = c)).map
    (fun p => p.1 / img.width)
  if 3 * rows.sum < img.height * rows.length then "upper region"
  else if 3 * rows.sum < 2 * (img.height * rows.length) then "central region"
  else "lower region"

/-- Number of clusters kept by the color clustering (the spec's small constant
k). -/
def clusterCount : ℕ := 5

/-- Ordering used to list clusters by share descending.  Total and transitive,
as required by the sorting lemmas. -/
def shareGE (a b : ColorCluster) : Prop := b.share ≤ a.share

instance : DecidableRel shareGE := fun a b =>
  inferInstanceAs (Decidable (b.share ≤ a.share))

/-- Modelled from the spec: seeded color clustering — partition the pixels
into clusters (exact-color partition in this model, a deterministic refinement
of seeded k-means), return centroid + scaled pixel-share per cluster sorted by
share descending, keeping the k largest (spec section 4.1; image_utils.py is
not in the source tree).  The seed parameter is threaded through but the model
is deterministic for every seed, which is the controlled behaviour the spec
requires. -/
def clusterColors (img : Image) (seed : ℕ) : List ColorCluster :=
  let _ := seed
  let clusters := img.pixels.dedup.map (fun c =>
    ColorCluster.mk c (img.pixels.count c * scaleOne / img.pixels.length)
      (zoneOfColor img c))
  (List.insertionSort shareGE clusters).take clusterCount

/-- The feature set: color clusters, texture signature, edge segments (spec
section 3). -/
structure FeatureSet where
  colorClusters : List ColorCluster
  textureSig : List ℕ
  geometry : List Segment
deriving DecidableEq, Repr

/-- The two fatal failure states of the pipeline (spec sections 4.6 and 7). -/
inductive PipelineError where
  | featureExtractionFailed
  | analysisFailed
deriving DecidableEq, Repr

instance {ε α : Type} [DecidableEq ε] [DecidableEq α] : DecidableEq (Except ε α) :=
  fun a b =>
    match a, b with
    | .ok x, .ok y =>
        if h : x = y then .isTrue (by rw [h])
        else .isFalse (fun hc => h (Except.ok.inj hc))
    | .error x, .error y =>
        if h : x = y then .isTrue (by rw [h])
        else .isFalse (fun hc => h (Except.error.inj hc))
    | .ok _, .error _ => .isFalse (fun hc => Except.noConfusion hc)
    | .error _, .ok _ => .isFalse (fun hc => Except.noConfusion hc)

/-- Modelled from the spec: FeatureExtractor — fails (fatally) only when the
image cannot yield any descriptor (zero-size buffer); a degenerate but
nonempty image still produces a valid FeatureSet with empty texture/geometry
fields (spec sections 4.1 and 7; image_utils.py is not in the source tree). -/
def extractFeatures (img : Image) (seed : ℕ) : Except PipelineError FeatureSet :=
  if img.width = 0 ∨ img.height = 0 ∨ img.pixels = [] then
    .error .featureExtractionFailed
  else
    .ok ⟨clusterColors img seed, textureSignature img, detectSegments img⟩

/-- Modelled from the spec: one material definition of the KnowledgeBase —
name, defined color range centers, expected scaled texture roughness, texture
label, and a property table (spec sections 3 and 6; config.py is not in the
source tree). -/
structure MaterialDef where
  name : String
  colorCenters : List Rgb
  texRoughness : ℕ
  textureLabel : String
  properties : List (String × String)
deriving DecidableEq, Repr

/-- Modelled from the spec: one component-catalog entry of the KnowledgeBase —
type name plus a geometric signature rule (orientation band and minimal
aligned-segment count) (spec sections 3, 4.3 and 6; config.py is not in the
source tree). -/
structure ComponentDef where
  ctype : String
  orientLo : ℕ
  orientHi : ℕ
  minSegments : ℕ
deriving DecidableEq, Repr

/-- Declarative phase-indicator rule (spec section 4.4): a phase is present
when enough materials were matched, or when enough components of the listed
types were detected above the phase confidence threshold. -/
inductive IndicatorRule where
  | materialCount (n : ℕ)
  | componentOfType (types : List String) (n : ℕ)
deriving DecidableEq, Repr

/-- Modelled from the spec: one phase of the ordered construction-phase
taxonomy — name, completion weight (percentage points), indicator rule,
checklist items (spec sections 4.4 and 6; config.py is not in the source
tree). -/
structure PhaseDef where
  name : String
  weight : ℕ
  indicator : IndicatorRule
  checklist : List String
deriving DecidableEq, Repr

/-- Modelled from the spec: the read-only KnowledgeBase, loaded once —
material table, component catalog, phase taxonomy (spec sections 3 and 6;
config.py is not in the source tree). -/
structure KnowledgeBase where
  materials : List MaterialDef
  components : List ComponentDef
  phases : List PhaseDef
deriving DecidableEq, Repr

/-- Scaled color weight of the matcher's fixed weighted sum: 0.6 (spec
section 4.2). -/
def colorWeight : ℕ := 600

/-- Scaled texture weight of the matcher's fixed weighted sum: 0.4 (spec
section 4.2). -/
def textureWeight : ℕ := 400

/-- Scaled acceptance threshold on material confidence: the spec default
0.3. -/
def acceptanceThreshold : ℕ := 300

/-- Distance from a material's defined color centers to one cluster centroid:
the nearest defined center counts. -/
def distToCluster (md : MaterialDef) (c : ColorCluster) : ℕ :=
  ((md.colorCenters.map (fun col => rgbDist col c.centroid)).min?).getD scaleOne

/-- The color cluster nearest to a material's defined color range, paired with
its distance; none when the image produced no clusters. -/
def nearestCluster (md : MaterialDef) (fs : FeatureSet) : Option (ℕ × ColorCluster) :=
  fs.colorClusters.foldl
    (fun best c =>
      match best with
      | none => some (distToCluster md c, c)
      | some (bd, bc) =>
          if distToCluster md c < bd then some (distToCluster md c, c)
          else some (bd, bc))
    none

/-- Color score: one minus the normalized distance to the nearest cluster
(in scaled arithmetic), 0 when there are no clusters (spec section 4.2). -/
def colorScore (md : MaterialDef) (fs : FeatureSet) : ℕ :=
  match nearestCluster md fs with
  | none => 0
  | some (d, _) => scaleOne - d

/-- Scaled pixel-share of the cluster the material matched against. -/
def matchedShare (md : MaterialDef) (fs : FeatureSet) : ℕ :=
  match nearestCluster md fs with
  | none => 0
  | some (_, c) => c.share

/-- Zone label of the cluster the material matched against. -/
def matchedZone (md : MaterialDef) (fs : FeatureSet) : String :=
  match nearestCluster md fs with
  | none => "unknown region"
  | some (_, c) => c.zone

/-- Observed roughness of the image: mean of the texture signature vector. -/
def observedRoughness (fs : FeatureSet) : ℕ := listMean fs.textureSig

/-- Texture score: similarity between the material's expected roughness and
the observed one; 0 for a degenerate (empty) texture signature (spec
section 4.2). -/
def textureScore (md : MaterialDef) (fs : FeatureSet) : ℕ :=
  if fs.textureSig = [] then 0
  else scaleOne - natDist (observedRoughness fs) md.texRoughness

/-- Modelled from the spec: the matcher's confidence — the fixed weighted sum
of color score and texture score, clipped to the unit interval (spec
section 4.2; structure_analyzer.py is not in the source tree). -/
def materialConfidence (md : MaterialDef) (fs : FeatureSet) : ℕ :=
  clampUnit ((colorWeight * colorScore md fs + textureWeight * textureScore md fs)
    / scaleOne)

/-- A matched material as it appears in the AnalysisResult (spec section 3). -/
structure Material where
  name : String
  confidence : ℕ
  share : ℕ
  location : String
  texture : String
  properties : List (String × String)
deriving DecidableEq, Repr

/-- Build the Material entry for one knowledge-base definition. -/
def mkMaterial (md : MaterialDef) (fs : FeatureSet) : Material :=
  ⟨md.name, materialConfidence md fs, matchedShare md fs, matchedZone md fs,
   md.textureLabel, md.properties⟩

/-- Ranking key shared by the materials list and the components list:
confidence, matched pixel-share, name. -/
structure RankKey where
  conf : ℕ
  share : ℕ
  name : String

/-- Ranking relation (spec section 3 invariant): higher confidence first; on
equal confidence the larger matched pixel-share first; remaining ties broken
by lexicographic name. -/
def keyLE (a b : RankKey) : Prop :=
  b.conf < a.conf ∨ (a.conf = b.conf ∧
    (b.share < a.share ∨ (a.share = b.share ∧ a.name ≤ b.name)))

instance (a b : RankKey) : Decidable (keyLE a b) := by
  unfold keyLE; infer_instance

theorem keyLE_total (a b : RankKey) : keyLE a b ∨ keyLE b a := by
  unfold keyLE
  rcases lt_trichotomy a.conf b.conf with h | h | h
  · exact Or.inr (Or.inl h)
  · rcases lt_trichotomy a.share b.share with h2 | h2 | h2
    · exact Or.inr (Or.inr ⟨h.symm, Or.inl h2⟩)
    · rcases le_total a.name b.name with h3 | h3
      · exact Or.inl (Or.inr ⟨h, Or.inr ⟨h2, h3⟩⟩)
      · exact Or.inr (Or.inr ⟨h.symm, Or.inr ⟨h2.symm, h3⟩⟩)
    · exact Or.inl (Or.inr ⟨h, Or.inl h2⟩)
  · exact Or.inl (Or.inl h)

theorem keyLE_trans (a b c : RankKey) (hab : keyLE a b) (hbc : keyLE b c) :
    keyLE a c := by
  unfold keyLE at *
  rcases hab with h1 | ⟨hc1, h1⟩
  · rcases hbc with h2 | ⟨hc2, _⟩
    · exact Or.inl (h2.trans h1)
    · exact Or.inl (hc2 ▸ h1)
  · rcases hbc with h2 | ⟨hc2, h2⟩
    · exact Or.inl (hc1 ▸ h2)
    · refine Or.inr ⟨hc1.trans hc2, ?_⟩
      rcases h1 with h1 | ⟨hs1, h1⟩
      · rcases h2 with h2 | ⟨hs2, _⟩
        · exact Or.inl (h2.trans h1)
        · exact Or.inl (hs2 ▸ h1)
      · rcases h2 with h2 | ⟨hs2, h2⟩
        · exact Or.inl (hs1 ▸ h2)
        · exact Or.inr ⟨hs1.trans hs2, h1.trans h2⟩

/-- Sort a list of entries by the ranking key, using insertion sort. -/
def rankSort {α : Type} (key : α → RankKey) (l : List α) : List α :=
  List.insertionSort (fun a b => keyLE (key a) (key b)) l

theorem rankSort_sorted {α : Type} (key : α → RankKey) (l : List α) :
    (rankSort key l).Pairwise (fun a b => keyLE (key a) (key b)) :=
  @List.sorted_insertionSort α (fun a b => keyLE (key a) (key b))
    (fun a b => inferInstanceAs (Decidable (keyLE (key a) (key b))))
    ⟨fun a b => keyLE_total (key a) (key b)⟩
    ⟨fun a b c => keyLE_trans (key a) (key b) (key c)⟩ l

theorem rankSort_mem {α : Type} (key : α → RankKey) (l : List α) (x : α) :
    x ∈ rankSort key l ↔ x ∈ l :=
  (List.perm_insertionSort (fun a b => keyLE (key a) (key b)) l).mem_iff

/-- Ranking key of a matched material. -/
def matKey (m : Material) : RankKey := ⟨m.confidence, m.share, m.name⟩

/-- Modelled from the spec: MaterialMatcher — score every knowledge-base
material, keep those whose confidence exceeds the acceptance threshold, and
list them by confidence descending with the tie-breaks of the spec invariant
(spec sections 4.2 and 3; structure_analyzer.py is not in the source tree). -/
def matchMaterials (kb : KnowledgeBase) (fs : FeatureSet) : List Material :=
  rankSort matKey
    ((kb.materials.map (fun md => mkMaterial md fs)).filter
      (fun m => acceptanceThreshold < m.confidence))

/-- A detected structural component as it appears in the AnalysisResult (spec
section 3).  The share field records the matched pixel-share used for ranking
tie-breaks. -/
structure StructuralComponent where
  component_type : String
  material : String
  dimensions : List (String × ℕ)
  location : String
  construction_method : String
  condition : String
  confidence : ℕ
  share : ℕ
  notable_features : List String
deriving DecidableEq, Repr

/-- Maximum of a list of naturals (0 for the empty list). -/
def listMax (l : List ℕ) : ℕ := l.foldl max 0

/-- Minimum of a nonempty list of naturals via its head as the seed. -/
def listMin (l : List ℕ) : ℕ :=
  match l with
  | [] => 0
  | a :: rest => rest.foldl min a

/-- Scaled irregularity score of a segment group: spread of segment lengths
relative to the longest one (spec section 4.3). -/
def irregularity (segs : List Segment) : ℕ :=
  if segs = [] then 0
  else
    (listMax (segs.map (fun s => s.length)) - listMin (segs.map (fun s => s.length)))
      * scaleOne / (listMax (segs.map (fun s => s.length)) + 1)

/-- Fixed thresholds mapping the scaled irregularity score onto the condition
categories (spec section 4.3). -/
def conditionLabel (irr : ℕ) : String :=
  if irr < 100 then "excellent"
  else if irr < 300 then "good"
  else if irr < 600 then "fair"
  else "poor"

/-- All adjacent differences of a list of track indices. -/
def trackGaps : List ℕ → List ℤ
  | a :: b :: rest => ((b : ℤ) - (a : ℤ)) :: trackGaps (b :: rest)
  | _ => []

/-- Whether all elements of a list are equal to its head. -/
def allEqual (l : List ℤ) : Bool :=
  match l with
  | [] => true
  | a :: rest => rest.all (fun x => x = a)

/-- Regular-spacing rule: the gaps between consecutive parallel segments are
constant (spec section 4.3). -/
def regularSpacing (segs : List Segment) : Bool :=
  allEqual (trackGaps (segs.map (fun s => s.track)))

/-- Construction method attributed from the assigned material (spec
section 3). -/
def methodOfMaterial (mat : String) : String :=
  if mat = "concrete" then "cast-in-place concrete"
  else if mat = "steel" then "steel frame assembly"
  else if mat = "brick" then "masonry construction"
  else "standard construction"

/-- Location label of a component type (spec section 4.3). -/
def componentLocation (ctype : String) : String :=
  if ctype = "beam" then "horizontal spanning elements"
  else if ctype = "column" then "vertical support elements"
  else "structural areas"

/-- Load-bearing rule: beams and columns are structurally primary (spec
section 4.3). -/
def loadBearing (ctype : String) : Bool := ctype = "beam" || ctype = "column"

/-- Segments inside a catalog entry's orientation band. -/
def alignedSegments (cd : ComponentDef) (fs : FeatureSet) : List Segment :=
  fs.geometry.filter
    (fun s => cd.orientLo ≤ s.orientation ∧ s.orientation ≤ cd.orientHi)

/-- Name of the material attributed to a component: the best-matched
material. -/
def attributedMaterial (mats : List Material) : String :=
  ((mats.head?).map (fun m => m.name)).getD "unknown"

/-- Matched pixel-share attributed to a component. -/
def attributedShare (mats : List Material) : ℕ :=
  ((mats.head?).map (fun m => m.share)).getD 0

/-- Modelled from the spec: detection of one catalog component — collect the
segments inside the catalog entry's orientation band, require the minimal
aligned-segment count, attribute the best-matching material, estimate
dimensions from pixel extents, derive condition from the irregularity score
and notable features from the fixed rule set (spec section 4.3;
structure_analyzer.py is not in the source tree). -/
def detectComponent (cd : ComponentDef) (fs : FeatureSet) (mats : List Material) :
    Option StructuralComponent :=
  if (alignedSegments cd fs).length < max cd.minSegments 1 then none
  else
    some
      { component_type := cd.ctype
        material := attributedMaterial mats
        dimensions :=
          [("length", listMax ((alignedSegments cd fs).map (fun s => s.length))),
           ("count", (alignedSegments cd fs).length)]
        location := componentLocation cd.ctype
        construction_method := methodOfMaterial (attributedMaterial mats)
        condition := conditionLabel (irregularity (alignedSegments cd fs))
        confidence := clampUnit (scaleOne / 2 + (alignedSegments cd fs).length * 50)
        share := attributedShare mats
        notable_features :=
          (if loadBearing cd.ctype then ["load-bearing"] else []) ++
          (if regularSpacing (alignedSegments cd fs) then ["regular spacing"] else []) }

/-- Ranking key of a structural component. -/
def compKey (c : StructuralComponent) : RankKey :=
  ⟨c.confidence, c.share, c.component_type⟩

/-- Modelled from the spec: StructuralComponentDetector — classify the
segment groups against the component catalog and list the detections by
confidence descending with the spec's tie-breaks (spec sections 4.3 and 3;
structure_analyzer.py is not in the source tree). -/
def detectComponents (kb : KnowledgeBase) (fs : FeatureSet) (mats : List Material) :
    List StructuralComponent :=
  rankSort compKey (kb.components.filterMap (fun cd => detectComponent cd fs mats))

/-- Scaled confidence threshold a component must exceed to count for a phase
indicator (spec section 4.4). -/
def phaseThreshold : ℕ := 500

/-- Evaluation of a declarative phase-indicator rule (spec section 4.4). -/
def indicatorHolds (rule : IndicatorRule) (mats : List Material)
    (comps : List StructuralComponent) : Bool :=
  match rule with
  | .materialCount n => n ≤ mats.length
  | .componentOfType types n =>
      n ≤ (comps.filter (fun c =>
        types.contains c.component_type && phaseThreshold < c.confidence)).length

/-- The ProjectProgress record (spec section 3); the completion percentage is
a natural number of percentage points. -/
structure ProjectProgress where
  phase : String
  completion_percentage : ℕ
  completed_elements : List String
  planned_elements : List String
  materials_used : List String
  construction_methods : List String
  timeline : Option String
  challenges : List String
deriving DecidableEq, Repr

/-- Phases of the taxonomy detected by their indicator rules, in taxonomy
order. -/
def detectedPhases (kb : KnowledgeBase) (mats : List Material)
    (comps : List StructuralComponent) : List PhaseDef :=
  kb.phases.filter (fun p => indicatorHolds p.indicator mats comps)

/-- Index (in the taxonomy order) past the highest detected phase. -/
def highestDetectedIndex (kb : KnowledgeBase) (mats : List Material)
    (comps : List StructuralComponent) : ℕ :=
  (kb.phases.enum.filter
    (fun p => indicatorHolds p.2.indicator mats comps)).foldl
    (fun acc p => max acc (p.1 + 1)) 0

/-- Modelled from the spec: ProgressEstimator — completion percentage is the
clamped weighted sum of the detected phase indicators; checklist items up to
and including the highest detected phase are completed, the later items are
planned; no progress record is produced when no phase indicator fires (spec
section 4.4; structure_analyzer.py is not in the source tree). -/
def estimateProgress (kb : KnowledgeBase) (mats : List Material)
    (comps : List StructuralComponent) : Option ProjectProgress :=
  match (detectedPhases kb mats comps).getLast? with
  | none => none
  | some topPhase =>
      some
        { phase := topPhase.name
          completion_percentage :=
            clampPercent (((detectedPhases kb mats comps).map (fun p => p.weight)).sum)
          completed_elements :=
            ((kb.phases.take (highestDetectedIndex kb mats comps)).map
              (fun p => p.checklist)).flatten
          planned_elements :=
            ((kb.phases.drop (highestDetectedIndex kb mats comps)).map
              (fun p => p.checklist)).flatten
          materials_used := mats.map (fun m => m.name)
          construction_methods :=
            (comps.map (fun c => c.construction_method)).dedup
          timeline := some ("Current phase: " ++ topPhase.name)
          challenges :=
            if comps.any (fun c => c.condition = "fair" || c.condition = "poor")
            then ["Condition issues on detected components"] else [] }

/-- The immutable AnalysisResult value object (spec sections 3 and 6). -/
structure AnalysisResult where
  materials : List Material
  structural_components : List StructuralComponent
  project_progress : Option ProjectProgress
  summary : String
  detailed_description : String
  recommendations : List String
  confidence_score : ℕ
deriving DecidableEq, Repr

/-- Modelled from the spec: DescriptionGenerator summary — a short narrative
built deterministically from the structured findings by template filling; it
is a total function and so never aborts the pipeline (spec section 4.5;
nlp_analyzer.py is not in the source tree). -/
def genSummary (mats : List Material) (comps : List StructuralComponent) : String :=
  "Identified " ++ toString mats.length ++ " materials and " ++
    toString comps.length ++ " structural components."

/-- Modelled from the spec: DescriptionGenerator detailed narrative — built by
deterministic template filling over the findings, falling back to a fixed
default template when there is nothing to describe (spec section 4.5;
nlp_analyzer.py is not in the source tree). -/
def genDetailed (mats : List Material) (comps : List StructuralComponent) : String :=
  if mats = [] && comps = [] then
    "No construction materials or structural components could be identified in the image."
  else
    String.intercalate " "
      ((mats.map (fun m => "The image shows " ++ m.name ++ " in the " ++ m.location ++ "."))
        ++ (comps.map (fun c =>
          "A " ++ c.component_type ++ " in " ++ c.condition ++ " condition was detected.")))

/-- Modelled from the spec: the recommendation rule table keyed on detected
deficiencies — fair/poor condition, low material confidence, missing
later-phase elements (spec section 4.5; nlp_analyzer.py is not in the source
tree). -/
def genRecommendations (mats : List Material) (comps : List StructuralComponent)
    (progress : Option ProjectProgress) : List String :=
  (if comps.any (fun c => c.condition = "fair" || c.condition = "poor")
   then ["Schedule a detailed condition assessment of the flagged components"] else []) ++
  (if mats.any (fun m => m.confidence < 500)
   then ["Verify low-confidence material identifications on site"] else []) ++
  (match progress with
   | some p => if p.planned_elements = [] then []
       else ["Plan the remaining construction elements of the later phases"]
   | none => ["Capture a clearer image to enable progress estimation"])

/-- Modelled from the spec: the overall confidence score — the count-weighted
average of the per-material and per-component confidences, 0 when both lists
are empty (spec section 4.6; structure_analyzer.py is not in the source
tree). -/
def overallConfidence (mats : List Material) (comps : List StructuralComponent) : ℕ :=
  if (mats.length + comps.length) = 0 then 0
  else ((mats.map (fun m => m.confidence)).sum + (comps.map (fun c => c.confidence)).sum)
    / (mats.length + comps.length)

/-- Modelled from the spec: ResultAssembler — a pure construction function
composing the computed sub-results into the immutable AnalysisResult (spec
section 4.6; structure_analyzer.py is not in the source tree). -/
def assembleResult (mats : List Material) (comps : List StructuralComponent)
    (progress : Option ProjectProgress) : AnalysisResult :=
  { materials := mats
    structural_components := comps
    project_progress := progress
    summary := genSummary mats comps
    detailed_description := genDetailed mats comps
    recommendations := genRecommendations mats comps progress
    confidence_score := overallConfidence mats comps }

/-- Modelled from the spec: the full analysis pipeline — Extract →
{MatchMaterials, DetectComponents} → EstimateProgress → GenerateDescription →
Assemble; every stage after extraction is total, so the only raised failure is
FeatureExtractionFailed (AnalysisFailed stands for an unexpected internal
failure and is never produced by the model) (spec sections 2, 4.6 and 7;
structure_analyzer.py is not in the source tree). -/
def runPipeline (img : Image) (kb : KnowledgeBase) (seed : ℕ) :
    Except PipelineError AnalysisResult :=
  match extractFeatures img seed with
  | .error e => .error e
  | .ok fs =>
      .ok (assembleResult (matchMaterials kb fs)
        (detectComponents kb fs (matchMaterials kb fs))
        (estimateProgress kb (matchMaterials kb fs)
          (detectComponents kb fs (matchMaterials kb fs))))

/-! Frontend embeddings, translated from the JavaScript sources. -/

/-- The HTTP response envelope of the serving layer: success flag, optional
analysis payload, message (API_DOCUMENTATION.md and apiService.js). -/
structure ServerResponse where
  success : Bool
  analysis : Option AnalysisResult
  message : String
deriving DecidableEq, Repr

/-- Failure message of the serving layer for each fatal pipeline error. -/
def errMessage : PipelineError → String
  | .featureExtractionFailed => "Image could not be processed"
  | .analysisFailed => "Analysis failed"

/-- Modelled from the spec: the serving layer maps the two fatal pipeline
errors to an explicit failure response and wraps every successful result in a
success response (spec section 7; analysis_controller.py is not in the source
tree). -/
def serveAnalyze (img : Image) (kb : KnowledgeBase) (seed : ℕ) : ServerResponse :=
  match runPipeline img kb seed with
  | .ok r => ⟨true, some r, "Analysis completed successfully"⟩
  | .error e => ⟨false, none, errMessage e⟩

/-- Payload the App stores into its results state: the analysis object when
the response carries one, otherwise the raw response (App.handleAnalyze,
response.analysis fallback). -/
inductive ResultsPayload where
  | analysis (a : AnalysisResult)
  | raw (resp : ServerResponse)
deriving DecidableEq, Repr

/-- Outcome of one analyze click in the UI: either results are shown or an
error message is shown. -/
inductive UIOutcome where
  | showResults (p : ResultsPayload)
  | showError (msg : String)
deriving DecidableEq, Repr

/-- Embedded from App.handleAnalyze (apiService.js source, response handling
lines): a successful response stores the analysis (falling back to the raw
response object), a failed response stores the message (falling back to the
fixed failure text when the message is JS-falsy). -/
def handleAnalyzeResponse (resp : ServerResponse) : UIOutcome :=
  if resp.success then
    match resp.analysis with
    | some a => .showResults (.analysis a)
    | none => .showResults (.raw resp)
  else
    .showError (if resp.message = "" then "Analysis failed" else resp.message)

/-- The backend endpoints the ApiService posts to (apiService.js). -/
inductive Endpoint where
  | analyze
  | identifyMaterials
  | documentProgress
  | structuralAnalysis
deriving DecidableEq, Repr

/-- URL path posted to for each endpoint (apiService.js). -/
def endpointPath : Endpoint → String
  | .analyze => "/analyze"
  | .identifyMaterials => "/identify-materials"
  | .documentProgress => "/document-progress"
  | .structuralAnalysis => "/structural-analysis"

/-- One outgoing analysis request: the endpoint and the analysis_type form
field (only the general analyze endpoint carries one). -/
structure AnalysisRequest where
  endpoint : Endpoint
  formAnalysisType : Option String
deriving DecidableEq, Repr

/-- Embedded from App.handleAnalyze (switch over analysisType): the selected
analysis type dispatches to exactly one ApiService call, every type outside
the three special cases (including comprehensive) going to the general
analyze endpoint with the type as a form field. -/
def dispatchAnalysis (analysisType : String) : AnalysisRequest :=
  if analysisType = "material_identification" then ⟨.identifyMaterials, none⟩
  else if analysisType = "project_progress" then ⟨.documentProgress, none⟩
  else if analysisType = "structural_analysis" then ⟨.structuralAnalysis, none⟩
  else ⟨.analyze, some analysisType⟩

/-- Embedded from AnalysisTypeSelector (analysisTypes array): the ids of the
four selectable analysis types. -/
def analysisTypeIds : List String :=
  ["material_identification", "project_progress", "structural_analysis",
   "comprehensive"]

/-- Embedded from ApiService.handleError: the data carried by a server error
response (data.message / data.error, each possibly absent or empty). -/
structure ErrorData where
  message : Option String
  error : Option String
deriving DecidableEq, Repr

/-- The response part of an axios error: HTTP status plus error data. -/
structure ErrorResponse where
  status : ℤ
  data : ErrorData
deriving DecidableEq, Repr

/-- An axios error object: optional server response, whether a request object
is present, and the error's own message. -/
structure AxiosError where
  response : Option ErrorResponse
  request : Bool
  message : Option String
deriving DecidableEq, Repr

/-- The value ApiService.handleError returns. -/
structure HandledError where
  message : String
  status : ℤ
  data : Option ErrorData
deriving DecidableEq, Repr

/-- JavaScript string-or fallback: an absent or empty string falls through to
the default. -/
def jsOrString (a : Option String) (b : String) : String :=
  match a with
  | some s => if s = "" then b else s
  | none => b

/-- Embedded from ApiService.handleError (apiService.js lines 115–136): a
received response yields its HTTP status, a request without response yields
status 0, and any other setup error yields status -1; a message string is
always produced. -/
def handleError (e : AxiosError) : HandledError :=
  match e.response with
  | some resp =>
      { message := jsOrString resp.data.message (jsOrString resp.data.error "Server error")
        status := resp.status
        data := some resp.data }
  | none =>
      if e.request then
        { message := "No response from server. Please check your connection."
          status := 0
          data := none }
      else
        { message := jsOrString e.message "An unexpected error occurred"
          status := -1
          data := none }

/-- A file dropped on the upload component: name and size in bytes. -/
structure DroppedFile where
  name : String
  size : ℕ
deriving DecidableEq, Repr

/-- Embedded from ImageUpload.useDropzone (accept map): the allow-listed image
file extensions. -/
def acceptedExtensions : List String := [".png", ".jpg", ".jpeg", ".bmp", ".tiff"]

/-- Embedded from ImageUpload.useDropzone (maxSize): the 16 MB upload
ceiling. -/
def maxUploadSize : ℕ := 16 * 1024 * 1024

/-- Embedded from ImageUpload.useDropzone (maxFiles): at most one file per
drop. -/
def maxUploadFiles : ℕ := 1

/-- Whether the second string is a suffix of the first, checked on the
character lists. -/
def stringEndsWith (s e : String) : Bool :=
  decide (s.data.drop (s.data.length - e.data.length) = e.data)

/-- Whether a file name carries one of the allow-listed extensions. -/
def hasAcceptedExtension (name : String) : Bool :=
  acceptedExtensions.any (fun e => stringEndsWith name e)

/-- Whether one dropped file passes the dropzone's per-file validation. -/
def fileAccepted (f : DroppedFile) : Bool :=
  hasAcceptedExtension f.name && f.size ≤ maxUploadSize

/-- Modelled from the spec: react-dropzone acceptance semantics for the
configuration in ImageUpload.useDropzone — each file must pass the extension
allow-list and the size ceiling, and a drop yielding more than maxFiles
accepted files is rejected wholesale (the react-dropzone library itself is
not part of the repository; the caller-side validation responsibility is spec
section 6). -/
def dropAccepted (files : List DroppedFile) : List DroppedFile :=
  if maxUploadFiles < (files.filter fileAccepted).length then []
  else files.filter fileAccepted

/-- The results value ResultsDisplay receives: every displayed field may be
absent (ResultsDisplay.js). -/
structure ResultsData where
  materials : Option (List Material)
  structural_components : Option (List StructuralComponent)
  project_progress : Option ProjectProgress
  recommendations : Option (List String)
  summary : Option String
  detailed_description : Option String
  confidence_score : ℕ
deriving DecidableEq, Repr

/-- Embedded from ResultsDisplay.renderMaterials: the materials section
renders only when the field is present and nonempty. -/
def renderMaterials (r : ResultsData) : Option (List Material) :=
  match r.materials with
  | none => none
  | some l => if l.length = 0 then none else some l

/-- Embedded from ResultsDisplay.renderStructuralComponents: the components
section renders only when the field is present and nonempty. -/
def renderStructuralComponents (r : ResultsData) :
    Option (List StructuralComponent) :=
  match r.structural_components with
  | none => none
  | some l => if l.length = 0 then none else some l

/-- Embedded from ResultsDisplay.renderProjectProgress: the progress section
renders whenever the field is present. -/
def renderProjectProgress (r : ResultsData) : Option ProjectProgress :=
  match r.project_progress with
  | none => none
  | some p => some p

/-- Embedded from ResultsDisplay.renderRecommendations: the recommendations
section renders only when the field is present and nonempty. -/
def renderRecommendations (r : ResultsData) : Option (List String) :=
  match r.recommendations with
  | none => none
  | some l => if l.length = 0 then none else some l

/-- The rendered sections of the results display. -/
structure RenderedDisplay where
  materialsSection : Option (List Material)
  componentsSection : Option (List StructuralComponent)
  progressSection : Option ProjectProgress
  recommendationsSection : Option (List String)
deriving DecidableEq, Repr

/-- Embedded from the ResultsDisplay component body: a null results value
renders nothing, otherwise the four optional sections are rendered from their
fields. -/
def resultsDisplay (results : Option ResultsData) : Option RenderedDisplay :=
  match results with
  | none => none
  | some r =>
      some ⟨renderMaterials r, renderStructuralComponents r,
            renderProjectProgress r, renderRecommendations r⟩

/-! Concrete default configuration and concrete inputs, used by the witness
theorems. -/

/-- Modelled from the spec: the default material table of the KnowledgeBase —
concrete, steel, brick, wood, glass with representative color centers,
scaled roughness, texture label and property table (spec section 6,
API_DOCUMENTATION.md examples; config.py is not in the source tree). -/
def defaultMaterials : List MaterialDef :=
  [⟨"concrete", [⟨150, 150, 145⟩], 100, "smooth",
     [("compressive_strength", "high"), ("durability", "excellent")]⟩,
   ⟨"steel", [⟨176, 196, 222⟩], 50, "metallic",
     [("tensile_strength", "very high")]⟩,
   ⟨"brick", [⟨178, 94, 60⟩], 300, "rough",
     [("thermal_mass", "high")]⟩,
   ⟨"wood", [⟨139, 104, 69⟩], 400, "grained",
     [("workability", "good")]⟩,
   ⟨"glass", [⟨220, 230, 240⟩], 20, "reflective",
     [("transparency", "high")]⟩]

/-- Modelled from the spec: the default component catalog — beams are long
near-horizontal aligned segments, columns near-vertical, walls dense segment
groups (spec section 4.3; config.py is not in the source tree). -/
def defaultComponents : List ComponentDef :=
  [⟨"beam", 0, 30, 2⟩,
   ⟨"column", 60, 90, 2⟩,
   ⟨"wall", 0, 90, 6⟩]

/-- Modelled from the spec: the default ordered phase taxonomy with indicator
rules, completion weights and checklist items (spec section 4.4; config.py is
not in the source tree). -/
def defaultPhases : List PhaseDef :=
  [⟨"foundation", 25, .materialCount 1,
     ["site preparation", "excavation", "foundation"]⟩,
   ⟨"structural_work", 30, .componentOfType ["beam", "column"] 1,
     ["structural frame", "primary beams", "columns"]⟩,
   ⟨"enclosure", 25, .componentOfType ["wall"] 1,
     ["roof structure", "exterior walls", "window installation"]⟩,
   ⟨"finishing", 20, .materialCount 4,
     ["interior finishing", "final inspections"]⟩]

/-- Default KnowledgeBase assembled from the default tables. -/
def defaultKB : KnowledgeBase :=
  ⟨defaultMaterials, defaultComponents, defaultPhases⟩

/-- A uniform black 2×2 test image (the degenerate blank image). -/
def blackImage : Image :=
  ⟨2, 2, [⟨0, 0, 0⟩, ⟨0, 0, 0⟩, ⟨0, 0, 0⟩, ⟨0, 0, 0⟩]⟩

/-- The zero-size test image (unusable input). -/
def emptyImage : Image := ⟨0, 0, []⟩

/-- The empty AnalysisResult, used as the fallback of pipelineOutput. -/
def emptyResult : AnalysisResult := ⟨[], [], none, "", "", [], 0⟩

/-- The AnalysisResult of a pipeline run, with the empty result standing in
for the (never displayed) failure case. -/
def pipelineOutput (img : Image) (kb : KnowledgeBase) (seed : ℕ) : AnalysisResult :=
  match runPipeline img kb seed with
  | .ok r => r
  | .error _ => emptyResult

/-- A concrete 3×3 test image: a concrete-grey field with a dark horizontal
band, giving nonempty clusters, texture and geometry. -/
def bandedImage : Image :=
  ⟨3, 3,
   [⟨150, 150, 145⟩, ⟨150, 150, 145⟩, ⟨150, 150, 145⟩,
    ⟨10, 10, 10⟩, ⟨10, 10, 10⟩, ⟨10, 10, 10⟩,
    ⟨150, 150, 145⟩, ⟨150, 150, 145⟩, ⟨150, 150, 145⟩]⟩

/-! Helper lemmas. -/

theorem materialConfidence_le (md : MaterialDef) (fs : FeatureSet) :
    materialConfidence md fs ≤ scaleOne := clampUnit_le _

/-- Every member of the materials list produced by the matcher is a scored
knowledge-base material above the threshold, and conversely. -/
theorem mem_matchMaterials (kb : KnowledgeBase) (fs : FeatureSet) (m : Material) :
    m ∈ matchMaterials kb fs ↔
      ∃ md, md ∈ kb.materials ∧ m = mkMaterial md fs ∧
        acceptanceThreshold < m.confidence := by
  unfold matchMaterials
  rw [rankSort_mem, List.mem_filter]
  constructor
  · rintro ⟨hmem, hconf⟩
    rcases List.mem_map.mp hmem with ⟨md, hmd, rfl⟩
    exact ⟨md, hmd, rfl, of_decide_eq_true hconf⟩
  · rintro ⟨md, hmd, rfl, hconf⟩
    exact ⟨List.mem_map.mpr ⟨md, hmd, rfl⟩, decide_eq_true hconf⟩

/-- Every detected component carries a clamped confidence. -/
theorem mem_detectComponents_confidence (kb : KnowledgeBase) (fs : FeatureSet)
    (mats : List Material) (c : StructuralComponent)
    (h : c ∈ detectComponents kb fs mats) :
    ∃ n : ℕ, c.confidence = clampUnit (scaleOne / 2 + n * 50) := by
  unfold detectComponents at h
  rw [rankSort_mem] at h
  rcases List.mem_filterMap.mp h with ⟨cd, _, hdet⟩
  unfold detectComponent at hdet
  by_cases hlen : (alignedSegments cd fs).length < max cd.minSegments 1
  · rw [if_pos hlen] at hdet
    exact absurd hdet (by simp)
  · rw [if_neg hlen] at hdet
    refine ⟨(alignedSegments cd fs).length, ?_⟩
    have := Option.some.inj hdet
    rw [← this]

/-- The overall confidence score is bounded by the unit scale whenever every
input confidence is. -/
theorem overallConfidence_le (mats : List Material) (comps : List StructuralComponent)
    (hm : ∀ m ∈ mats, m.confidence ≤ scaleOne)
    (hc : ∀ c ∈ comps, c.confidence ≤ scaleOne) :
    overallConfidence mats comps ≤ scaleOne := by
  unfold overallConfidence
  by_cases hn : (mats.length + comps.length) = 0
  · rw [if_pos hn]
    exact Nat.zero_le _
  · rw [if_neg hn]
    have h1 : (mats.map (fun m => m.confidence)).sum ≤ mats.length * scaleOne := by
      have := List.sum_le_card_nsmul (mats.map (fun m => m.confidence)) scaleOne
        (by intro x hx
            rcases List.mem_map.mp hx with ⟨m, hmm, rfl⟩
            exact hm m hmm)
      simpa [smul_eq_mul] using this
    have h2 : (comps.map (fun c => c.confidence)).sum ≤ comps.length * scaleOne := by
      have := List.sum_le_card_nsmul (comps.map (fun c => c.confidence)) scaleOne
        (by intro x hx
            rcases List.mem_map.mp hx with ⟨c, hcc, rfl⟩
            exact hc c hcc)
      simpa [smul_eq_mul] using this
    have hsum : (mats.map (fun m => m.confidence)).sum +
        (comps.map (fun c => c.confidence)).sum ≤
        (mats.length + comps.length) * scaleOne := by
      rw [Nat.add_mul]
      omega
    calc ((mats.map (fun m => m.confidence)).sum +
            (comps.map (fun c => c.confidence)).sum) / (mats.length + comps.length)
        ≤ (mats.length + comps.length) * scaleOne / (mats.length + comps.length) :=
          Nat.div_le_div_right hsum
      _ = scaleOne := by
          rw [Nat.mul_comm]
          exact Nat.mul_div_cancel _ (Nat.pos_of_ne_zero hn)

/-- Every pixel of every row of a chunked buffer comes from the buffer. -/
theorem mem_of_mem_chunksAux (w : ℕ) :
    ∀ (fuel : ℕ) (l : List Rgb) (row : List Rgb), row ∈ chunksAux w fuel l →
      ∀ x ∈ row, x ∈ l := by
  intro fuel
  induction fuel with
  | zero => intro l row h; simp [chunksAux] at h
  | succ n ih =>
      intro l row h x hx
      cases l with
      | nil => simp [chunksAux] at h
      | cons a as =>
          simp only [chunksAux, List.mem_cons] at h
          rcases h with rfl | h
          · exact List.take_subset w _ hx
          · exact List.drop_subset w _ (ih _ _ h x hx)

/-- Rows of an image consist of pixels of the image. -/
theorem mem_of_mem_rowsOf (img : Image) (row : List Rgb) (h : row ∈ rowsOf img) :
    ∀ x ∈ row, x ∈ img.pixels :=
  mem_of_mem_chunksAux img.width img.pixels.length img.pixels row h

/-- Columns of a well-formed image consist of pixels of the image. -/
theorem mem_of_mem_columnsOf (img : Image)
    (hwf : img.pixels.length = img.width * img.height)
    (col : List Rgb) (h : col ∈ columnsOf img) :
    ∀ x ∈ col, x ∈ img.pixels := by
  unfold columnsOf at h
  rcases List.mem_map.mp h with ⟨j, hj, rfl⟩
  have hjw : j < img.width := List.mem_range.mp hj
  intro x hx
  unfold columnOf at hx
  rcases List.mem_map.mp hx with ⟨i, hi, rfl⟩
  have hih : i < img.height := List.mem_range.mp hi
  have hidx : i * img.width + j < img.pixels.length := by
    rw [hwf, Nat.mul_comm img.width img.height]
    calc i * img.width + j < (i + 1) * img.width := by
          rw [Nat.succ_mul]; omega
      _ ≤ img.height * img.width := Nat.mul_le_mul_right _ hih
  rw [List.getD_eq_getElem _ _ hidx]
  exact List.getElem_mem hidx

theorem rgbDist_self (a : Rgb) : rgbDist a a = 0 := by
  simp [rgbDist, natDist]

/-- On a list whose elements are all equal, every adjacent gradient is zero. -/
theorem adjacentDiffs_eq_zero :
    ∀ (l : List Rgb), (∀ a ∈ l, ∀ b ∈ l, a = b) → ∀ d ∈ adjacentDiffs l, d = 0 := by
  intro l
  induction l with
  | nil => intro _ d hd; simp [adjacentDiffs] at hd
  | cons a rest ih =>
      intro h d hd
      cases rest with
      | nil => simp [adjacentDiffs] at hd
      | cons b rest2 =>
          simp only [adjacentDiffs, List.mem_cons] at hd
          rcases hd with rfl | hd
          · have hab : a = b := h a (by simp) b (by simp)
            rw [hab, rgbDist_self]
          · exact ih (fun x hx y hy => h x (List.mem_cons_of_mem a hx)
              y (List.mem_cons_of_mem a hy)) d hd

/-- A list of all-false edge flags yields no runs. -/
theorem runLengthsAux_false :
    ∀ (flags : List Bool), (∀ f ∈ flags, f = false) → runLengthsAux flags 0 = [] := by
  intro flags
  induction flags with
  | nil => intro _; rfl
  | cons f rest ih =>
      intro h
      have hf : f = false := h f (by simp)
      subst hf
      simpa [runLengthsAux] using ih fun x hx => h x (List.mem_cons_of_mem false hx)

/-- Lines with pairwise-equal pixels produce no segments. -/
theorem segmentsOfLines_eq_nil (o : ℕ) (lines : List (List Rgb))
    (h : ∀ line ∈ lines, ∀ a ∈ line, ∀ b ∈ line, a = b) :
    segmentsOfLines o lines = [] := by
  unfold segmentsOfLines
  rw [List.flatten_eq_nil_iff]
  intro ls hls
  rcases List.mem_map.mp hls with ⟨p, hp, rfl⟩
  have hline : p.2 ∈ lines := by
    have := List.mem_enum_iff_getElem?.mp hp
    exact List.getElem?_mem this
  have hflags : ∀ f ∈ highFlags p.2, f = false := by
    intro f hf
    unfold highFlags at hf
    rcases List.mem_map.mp hf with ⟨d, hd, rfl⟩
    have hd0 : d = 0 := adjacentDiffs_eq_zero p.2 (h p.2 hline) d hd
    subst hd0
    simp [edgeThreshold]
  have hruns : runLengths (highFlags p.2) = [] := runLengthsAux_false _ hflags
  rw [hruns]
  rfl

/-- An image all of whose pixels are equal (the degenerate uniform content of
spec section 4.1). -/
def uniformPixels (img : Image) : Prop :=
  ∀ p ∈ img.pixels, ∀ q ∈ img.pixels, p = q

instance (img : Image) : Decidable (uniformPixels img) :=
  inferInstanceAs (Decidable (∀ p ∈ img.pixels, ∀ q ∈ img.pixels, p = q))

theorem textureSignature_uniform (img : Image) (h : uniformPixels img) :
    textureSignature img = [] := by
  unfold textureSignature
  have hall : ((rowsOf img).map adjacentDiffs).flatten.all
      (fun d => decide (d = 0)) = true := by
    rw [List.all_eq_true]
    intro d hd
    rcases List.mem_flatten.mp hd with ⟨dl, hdl, hdmem⟩
    rcases List.mem_map.mp hdl with ⟨row, hrow, rfl⟩
    have hrowu : ∀ a ∈ row, ∀ b ∈ row, a = b := fun a ha b hb =>
      h a (mem_of_mem_rowsOf img row hrow a ha) b (mem_of_mem_rowsOf img row hrow b hb)
    exact decide_eq_true (adjacentDiffs_eq_zero row hrowu d hdmem)
  simp [hall]

theorem detectSegments_uniform (img : Image)
    (hwf : img.pixels.length = img.width * img.height) (h : uniformPixels img) :
    detectSegments img = [] := by
  unfold detectSegments
  have h1 : segmentsOfLines 0 (rowsOf img) = [] :=
    segmentsOfLines_eq_nil 0 (rowsOf img) fun line hline a ha b hb =>
      h a (mem_of_mem_rowsOf img line hline a ha)
        b (mem_of_mem_rowsOf img line hline b hb)
  have h2 : segmentsOfLines 90 (columnsOf img) = [] :=
    segmentsOfLines_eq_nil 90 (columnsOf img) fun line hline a ha b hb =>
      h a (mem_of_mem_columnsOf img hwf line hline a ha)
        b (mem_of_mem_columnsOf img hwf line hline b hb)
  rw [h1, h2]
  rfl

/-- Feature extraction on a well-formed uniform image: no failure, valid
feature set, degenerate (empty) texture and geometry descriptors. -/
theorem extractFeatures_uniform (img : Image) (seed : ℕ)
    (hw : img.width ≠ 0) (hh : img.height ≠ 0) (hp : img.pixels ≠ [])
    (hwf : img.pixels.length = img.width * img.height) (hu : uniformPixels img) :
    extractFeatures img seed = .ok ⟨clusterColors img seed, [], []⟩ := by
  unfold extractFeatures
  rw [if_neg (by simp [hw, hh, hp]), textureSignature_uniform img hu,
    detectSegments_uniform img hwf hu]

/-- With no extracted geometry the detector finds no components. -/
theorem detectComponents_no_geometry (kb : KnowledgeBase) (fs : FeatureSet)
    (mats : List Material) (hg : fs.geometry = []) :
    detectComponents kb fs mats = [] := by
  unfold detectComponents
  have hnone : ∀ cd ∈ kb.components, detectComponent cd fs mats = none := by
    intro cd _
    unfold detectComponent
    rw [if_pos]
    unfold alignedSegments
    rw [hg]
    simp only [List.filter_nil, List.length_nil]
    have : 1 ≤ max cd.minSegments 1 := le_max_right _ _
    omega
  rw [List.filterMap_eq_nil_iff.mpr hnone]
  rfl

/-- Destructuring of a successful pipeline run into its stages. -/
theorem runPipeline_ok_elim (img : Image) (kb : KnowledgeBase) (seed : ℕ)
    (r : AnalysisResult) (h : runPipeline img kb seed = .ok r) :
    ∃ fs, extractFeatures img seed = .ok fs ∧
      r = assembleResult (matchMaterials kb fs)
            (detectComponents kb fs (matchMaterials kb fs))
            (estimateProgress kb (matchMaterials kb fs)
              (detectComponents kb fs (matchMaterials kb fs))) := by
  unfold runPipeline at h
  cases hex : extractFeatures img seed with
  | error e => rw [hex] at h; exact absurd h (by simp)
  | ok fs =>
      rw [hex] at h
      exact ⟨fs, rfl, (Except.ok.inj h).symm⟩

/-- Every error a pipeline run raises is the extraction failure. -/
theorem runPipeline_error_elim (img : Image) (kb : KnowledgeBase) (seed : ℕ)
    (e : PipelineError) (h : runPipeline img kb seed = .error e) :
    e = .featureExtractionFailed := by
  unfold runPipeline at h
  cases hex : extractFeatures img seed with
  | error e2 =>
      rw [hex] at h
      have he2 : e2 = .featureExtractionFailed := by
        unfold extractFeatures at hex
        by_cases hc : img.width = 0 ∨ img.height = 0 ∨ img.pixels = []
        · rw [if_pos hc] at hex
          exact (Except.error.inj hex).symm
        · rw [if_neg hc] at hex
          exact absurd hex (by simp)
      rw [← he2]
      exact (Except.error.inj h).symm
  | ok fs => rw [hex] at h; exact absurd h (by simp)

/-- Completion percentage of any produced progress record is clamped. -/
theorem estimateProgress_completion (kb : KnowledgeBase) (mats : List Material)
    (comps : List StructuralComponent) (p : ProjectProgress)
    (h : estimateProgress kb mats comps = some p) :
    p.completion_percentage ≤ 100 := by
  unfold estimateProgress at h
  cases hl : (detectedPhases kb mats comps).getLast? with
  | none => rw [hl] at h; exact absurd h (by simp)
  | some top =>
      rw [hl] at h
      have := Option.some.inj h
      rw [← this]
      exact clampPercent_le _

/-! Claim theorems. -/

/-- C1: the analysis pipeline is a deterministic function of the image bytes,
the KnowledgeBase and the clustering seed — two runs on the same inputs
produce identical AnalysisResult values (and identical outcomes generally). -/
theorem pipeline_deterministic :
    (∀ (img : Image) (kb : KnowledgeBase) (seed : ℕ),
      runPipeline img kb seed = runPipeline img kb seed) ∧
    (∀ (img : Image) (kb : KnowledgeBase) (seed : ℕ) (r₁ r₂ : AnalysisResult),
      runPipeline img kb seed = .ok r₁ → runPipeline img kb seed = .ok r₂ →
      r₁ = r₂) :=
  ⟨fun _ _ _ => rfl,
   fun _ _ _ _ _ h₁ h₂ => Except.ok.inj (h₁.symm.trans h₂)⟩

set_option maxRecDepth 1000000 in
/-- Witness for C1: two runs on the concrete banded test image agree. -/
theorem pipeline_deterministic_witness :
    pipelineOutput bandedImage defaultKB 0 = pipelineOutput bandedImage defaultKB 0 :=
  pipeline_deterministic.2 bandedImage defaultKB 0
    (pipelineOutput bandedImage defaultKB 0) (pipelineOutput bandedImage defaultKB 0)
    (by decide) (by decide)

/-- Bounds required of every produced AnalysisResult: all confidences denote
rationals in [0,1] and any completion percentage lies in [0,100]. -/
def resultBoundsOk (r : AnalysisResult) : Prop :=
  (∀ m ∈ r.materials, 0 ≤ unitValue m.confidence ∧ unitValue m.confidence ≤ 1) ∧
  (∀ c ∈ r.structural_components,
    0 ≤ unitValue c.confidence ∧ unitValue c.confidence ≤ 1) ∧
  (0 ≤ unitValue r.confidence_score ∧ unitValue r.confidence_score ≤ 1) ∧
  (∀ p, r.project_progress = some p →
    (0 : ℚ) ≤ (p.completion_percentage : ℚ) ∧ (p.completion_percentage : ℚ) ≤ 100)

/-- C2: every confidence value in a produced AnalysisResult (per material, per
structural component, and the overall confidence score) lies in [0,1], and
every completion percentage lies in [0,100]. -/
theorem pipeline_confidence_bounds (img : Image) (kb : KnowledgeBase) (seed : ℕ)
    (r : AnalysisResult) (h : runPipeline img kb seed = .ok r) :
    resultBoundsOk r := by
  rcases runPipeline_ok_elim img kb seed r h with ⟨fs, hex, rfl⟩
  refine ⟨?_, ?_, ?_, ?_⟩
  · intro m hm
    rcases (mem_matchMaterials kb fs m).mp hm with ⟨md, hmd, rfl, _⟩
    exact ⟨unitValue_nonneg _, unitValue_le_one (materialConfidence_le md fs)⟩
  · intro c hc
    rcases mem_detectComponents_confidence kb fs _ c hc with ⟨n, hn⟩
    exact ⟨unitValue_nonneg _, unitValue_le_one (by rw [hn]; exact clampUnit_le _)⟩
  · refine ⟨unitValue_nonneg _, unitValue_le_one ?_⟩
    apply overallConfidence_le
    · intro m hm
      rcases (mem_matchMaterials kb fs m).mp hm with ⟨md, _, rfl, _⟩
      exact materialConfidence_le md fs
    · intro c hc
      rcases mem_detectComponents_confidence kb fs _ c hc with ⟨n, hn⟩
      rw [hn]
      exact clampUnit_le _
  · intro p hp
    have h100 := estimateProgress_completion kb _ _ p hp
    constructor
    · positivity
    · exact_mod_cast h100

set_option maxRecDepth 1000000 in
/-- Witness for C2: the bounds hold on the concrete banded test image's
result, which has nonempty materials, components and progress. -/
theorem pipeline_confidence_bounds_witness :
    resultBoundsOk (pipelineOutput bandedImage defaultKB 0) :=
  pipeline_confidence_bounds bandedImage defaultKB 0
    (pipelineOutput bandedImage defaultKB 0) (by decide)

/-- A list is ranked when it is pairwise ordered by the ranking relation:
confidence non-increasing, equal confidence broken by larger matched
pixel-share, remaining ties by lexicographic name. -/
def rankedBy {α : Type} (key : α → RankKey) (l : List α) : Prop :=
  l.Pairwise (fun a b => keyLE (key a) (key b))

/-- C3: in every produced AnalysisResult both the materials list and the
structural components list are sorted non-increasing in confidence, with
equal-confidence ties broken by larger matched pixel-share and remaining ties
by lexicographic name. -/
theorem pipeline_lists_ranked (img : Image) (kb : KnowledgeBase) (seed : ℕ)
    (r : AnalysisResult) (h : runPipeline img kb seed = .ok r) :
    rankedBy matKey r.materials ∧ rankedBy compKey r.structural_components := by
  rcases runPipeline_ok_elim img kb seed r h with ⟨fs, hex, rfl⟩
  exact ⟨rankSort_sorted matKey _, rankSort_sorted compKey _⟩

set_option maxRecDepth 1000000 in
/-- Witness for C3: the ranking holds on the concrete banded test image's
result, whose materials list has five entries. -/
theorem pipeline_lists_ranked_witness :
    rankedBy matKey (pipelineOutput bandedImage defaultKB 0).materials ∧
    rankedBy compKey (pipelineOutput bandedImage defaultKB 0).structural_components :=
  pipeline_lists_ranked bandedImage defaultKB 0
    (pipelineOutput bandedImage defaultKB 0) (by decide)

/-- C4: a pipeline run fails only with FeatureExtractionFailed or
AnalysisFailed, and the caller layer maps exactly the failures to an explicit
error outcome while every success (including an empty one) is shown as
results. -/
theorem pipeline_failure_modes (img : Image) (kb : KnowledgeBase) (seed : ℕ) :
    (∀ e, runPipeline img kb seed = .error e →
      (e = .featureExtractionFailed ∨ e = .analysisFailed) ∧
      handleAnalyzeResponse (serveAnalyze img kb seed) = .showError (errMessage e)) ∧
    (∀ r, runPipeline img kb seed = .ok r →
      handleAnalyzeResponse (serveAnalyze img kb seed) = .showResults (.analysis r)) := by
  constructor
  · intro e he
    refine ⟨Or.inl (runPipeline_error_elim img kb seed e he), ?_⟩
    unfold serveAnalyze
    rw [he]
    cases e <;> rfl
  · intro r hr
    unfold serveAnalyze
    rw [hr]
    rfl

/-- Witness for C4: the zero-size image fails with FeatureExtractionFailed and
the UI shows the explicit failure message. -/
theorem pipeline_failure_modes_witness :
    (PipelineError.featureExtractionFailed = PipelineError.featureExtractionFailed ∨
      PipelineError.featureExtractionFailed = PipelineError.analysisFailed) ∧
    handleAnalyzeResponse (serveAnalyze emptyImage defaultKB 0) =
      .showError (errMessage .featureExtractionFailed) :=
  (pipeline_failure_modes emptyImage defaultKB 0).1 .featureExtractionFailed (by decide)

set_option maxRecDepth 1000000 in
/-- C5: a well-formed image that is uniform after preprocessing still yields a
valid FeatureSet with empty texture and geometry descriptors instead of
failing; the pipeline on such an image succeeds with no structural components,
and on the concrete uniform black image it returns the empty result (no
materials, no components, zero confidence) rather than an error. -/
theorem degenerate_image_graceful :
    (∀ (img : Image) (seed : ℕ), img.width ≠ 0 → img.height ≠ 0 →
      img.pixels ≠ [] → img.pixels.length = img.width * img.height →
      uniformPixels img →
      extractFeatures img seed = .ok ⟨clusterColors img seed, [], []⟩) ∧
    (∀ (img : Image) (kb : KnowledgeBase) (seed : ℕ), img.width ≠ 0 →
      img.height ≠ 0 → img.pixels ≠ [] →
      img.pixels.length = img.width * img.height → uniformPixels img →
      runPipeline img kb seed = .ok (pipelineOutput img kb seed) ∧
      (pipelineOutput img kb seed).structural_components = []) ∧
    runPipeline blackImage defaultKB 0 = .ok (assembleResult [] [] none) := by
  refine ⟨extractFeatures_uniform, ?_, by decide⟩
  intro img kb seed hw hh hp hwf hu
  have hex := extractFeatures_uniform img seed hw hh hp hwf hu
  have hrun : runPipeline img kb seed =
      .ok (assembleResult
        (matchMaterials kb ⟨clusterColors img seed, [], []⟩)
        (detectComponents kb ⟨clusterColors img seed, [], []⟩
          (matchMaterials kb ⟨clusterColors img seed, [], []⟩))
        (estimateProgress kb
          (matchMaterials kb ⟨clusterColors img seed, [], []⟩)
          (detectComponents kb ⟨clusterColors img seed, [], []⟩
            (matchMaterials kb ⟨clusterColors img seed, [], []⟩)))) := by
    unfold runPipeline
    rw [hex]
  have hout : pipelineOutput img kb seed =
      assembleResult
        (matchMaterials kb ⟨clusterColors img seed, [], []⟩)
        (detectComponents kb ⟨clusterColors img seed, [], []⟩
          (matchMaterials kb ⟨clusterColors img seed, [], []⟩))
        (estimateProgress kb
          (matchMaterials kb ⟨clusterColors img seed, [], []⟩)
          (detectComponents kb ⟨clusterColors img seed, [], []⟩
            (matchMaterials kb ⟨clusterColors img seed, [], []⟩))) := by
    unfold pipelineOutput
    rw [hrun]
  constructor
  · rw [hrun, hout]
  · rw [hout]
    show detectComponents kb ⟨clusterColors img seed, [], []⟩ _ = []
    exact detectComponents_no_geometry kb _ _ rfl

set_option maxRecDepth 1000000 in
/-- Witness for C5: the concrete uniform black image extracts a degenerate
FeatureSet and its pipeline result has no structural components. -/
theorem degenerate_image_graceful_witness :
    extractFeatures blackImage 0 = .ok ⟨clusterColors blackImage 0, [], []⟩ ∧
    (pipelineOutput blackImage defaultKB 0).structural_components = [] :=
  ⟨degenerate_image_graceful.1 blackImage 0 (by decide) (by decide) (by decide)
      (by decide) (by decide),
   (degenerate_image_graceful.2.1 blackImage defaultKB 0 (by decide) (by decide)
      (by decide) (by decide) (by decide)).2⟩

/-- C6: material confidence is the fixed weighted sum of the color score
(weight 0.6) and the texture score (weight 0.4) with the color weight strictly
larger, clipped to the unit interval, and a material enters the result exactly
when its confidence exceeds the acceptance threshold 0.3. -/
theorem material_scoring_rule :
    textureWeight < colorWeight ∧
    unitValue colorWeight = 6 / 10 ∧
    unitValue textureWeight = 4 / 10 ∧
    unitValue acceptanceThreshold = 3 / 10 ∧
    (∀ (md : MaterialDef) (fs : FeatureSet),
      materialConfidence md fs =
        clampUnit ((colorWeight * colorScore md fs +
          textureWeight * textureScore md fs) / scaleOne)) ∧
    (∀ (kb : KnowledgeBase) (fs : FeatureSet) (m : Material),
      m ∈ matchMaterials kb fs ↔
        ∃ md, md ∈ kb.materials ∧ m = mkMaterial md fs ∧
          acceptanceThreshold < m.confidence) := by
  refine ⟨by decide, ?_, ?_, ?_, fun md fs => rfl, mem_matchMaterials⟩
  · unfold unitValue colorWeight scaleOne
    norm_num
  · unfold unitValue textureWeight scaleOne
    norm_num
  · unfold unitValue acceptanceThreshold scaleOne
    norm_num

/-- C7: the client dispatches each selected analysis type to exactly one
endpoint — material_identification to identify-materials, project_progress to
document-progress, structural_analysis to structural-analysis, and every other
type (comprehensive included) to the general analyze endpoint carrying the
type as a form field; the endpoint paths are the ones the ApiService posts
to. -/
theorem analysis_type_dispatch :
    dispatchAnalysis "material_identification" =
      ⟨.identifyMaterials, none⟩ ∧
    dispatchAnalysis "project_progress" = ⟨.documentProgress, none⟩ ∧
    dispatchAnalysis "structural_analysis" = ⟨.structuralAnalysis, none⟩ ∧
    dispatchAnalysis "comprehensive" = ⟨.analyze, some "comprehensive"⟩ ∧
    "comprehensive" ∈ analysisTypeIds ∧
    endpointPath .identifyMaterials = "/identify-materials" ∧
    endpointPath .documentProgress = "/document-progress" ∧
    endpointPath .structuralAnalysis = "/structural-analysis" ∧
    endpointPath .analyze = "/analyze" ∧
    (∀ t : String, t ≠ "material_identification" → t ≠ "project_progress" →
      t ≠ "structural_analysis" → dispatchAnalysis t = ⟨.analyze, some t⟩) := by
  refine ⟨by decide, by decide, by decide, by decide, by decide,
    rfl, rfl, rfl, rfl, ?_⟩
  intro t h1 h2 h3
  unfold dispatchAnalysis
  rw [if_neg h1, if_neg h2, if_neg h3]

/-- Witness for C7: an unrecognized type string goes to the general analyze
endpoint carrying that type. -/
theorem analysis_type_dispatch_witness :
    dispatchAnalysis "thermal_analysis" = ⟨.analyze, some "thermal_analysis"⟩ :=
  analysis_type_dispatch.2.2.2.2.2.2.2.2.2 "thermal_analysis"
    (by decide) (by decide) (by decide)

/-- C8: a drop accepts at most one file, and every accepted file carries an
allow-listed image extension and is at most 16 MB (16 * 1024 * 1024 bytes). -/
theorem upload_validation (files : List DroppedFile) :
    (dropAccepted files).length ≤ maxUploadFiles ∧
    maxUploadFiles = 1 ∧
    maxUploadSize = 16 * 1024 * 1024 ∧
    (∀ f ∈ dropAccepted files,
      hasAcceptedExtension f.name = true ∧ f.size ≤ 16 * 1024 * 1024) := by
  refine ⟨?_, rfl, rfl, ?_⟩
  · unfold dropAccepted
    by_cases hlen : maxUploadFiles < (files.filter fileAccepted).length
    · rw [if_pos hlen]
      simp
    · rw [if_neg hlen]
      omega
  · intro f hf
    unfold dropAccepted at hf
    by_cases hlen : maxUploadFiles < (files.filter fileAccepted).length
    · rw [if_pos hlen] at hf
      exact absurd hf (by simp)
    · rw [if_neg hlen] at hf
      have hacc : fileAccepted f = true := (List.mem_filter.mp hf).2
      unfold fileAccepted at hacc
      rw [Bool.and_eq_true] at hacc
      refine ⟨hacc.1, ?_⟩
      have := of_decide_eq_true hacc.2
      simpa [maxUploadSize] using this

/-- Witness for C8: a concrete 1000-byte PNG drop is accepted and satisfies
the allow-list and size ceiling. -/
theorem upload_validation_witness :
    (dropAccepted [⟨"site.png", 1000⟩]).length ≤ maxUploadFiles ∧
    hasAcceptedExtension (DroppedFile.mk "site.png" 1000).name = true ∧
    (DroppedFile.mk "site.png" 1000).size ≤ 16 * 1024 * 1024 :=
  ⟨(upload_validation [⟨"site.png", 1000⟩]).1,
   ((upload_validation [⟨"site.png", 1000⟩]).2.2.2 ⟨"site.png", 1000⟩ (by decide)).1,
   ((upload_validation [⟨"site.png", 1000⟩]).2.2.2 ⟨"site.png", 1000⟩ (by decide)).2⟩

/-- C9: ApiService.handleError always returns an object with a message and a
numeric status — the server's HTTP status when a response was received, 0 when
the request got no response, and -1 for any other setup error. -/
theorem handle_error_status (e : AxiosError) :
    (∀ resp, e.response = some resp → (handleError e).status = resp.status) ∧
    (e.response = none → e.request = true → (handleError e).status = 0) ∧
    (e.response = none → e.request = false → (handleError e).status = -1) := by
  refine ⟨?_, ?_, ?_⟩
  · intro resp hresp
    unfold handleError
    rw [hresp]
  · intro h0 h1
    unfold handleError
    rw [h0, h1]
    rfl
  · intro h0 h1
    unfold handleError
    rw [h0, h1]
    rfl

/-- Witness for C9: the three error shapes at concrete inputs — a 404
response, a response-less request, and a setup error. -/
theorem handle_error_status_witness :
    (handleError ⟨some ⟨404, ⟨none, none⟩⟩, false, none⟩).status = 404 ∧
    (handleError ⟨none, true, none⟩).status = 0 ∧
    (handleError ⟨none, false, some "boom"⟩).status = -1 :=
  ⟨(handle_error_status ⟨some ⟨404, ⟨none, none⟩⟩, false, none⟩).1
      ⟨404, ⟨none, none⟩⟩ rfl,
   (handle_error_status ⟨none, true, none⟩).2.1 rfl rfl,
   (handle_error_status ⟨none, false, some "boom"⟩).2.2 rfl rfl⟩

/-- C10: ResultsDisplay is total over partial result shapes — a null results
value renders nothing, the three list-valued sections render exactly when
their field is present and nonempty, and the progress section renders exactly
when its field is present. -/
theorem results_display_totality :
    resultsDisplay none = none ∧
    (∀ r : ResultsData, resultsDisplay (some r) =
      some ⟨renderMaterials r, renderStructuralComponents r,
            renderProjectProgress r, renderRecommendations r⟩) ∧
    (∀ r : ResultsData, renderMaterials r = none ↔
      r.materials = none ∨ r.materials = some []) ∧
    (∀ r : ResultsData, renderStructuralComponents r = none ↔
      r.structural_components = none ∨ r.structural_components = some []) ∧
    (∀ r : ResultsData, renderRecommendations r = none ↔
      r.recommendations = none ∨ r.recommendations = some []) ∧
    (∀ r : ResultsData, renderProjectProgress r = none ↔
      r.project_progress = none) := by
  refine ⟨rfl, fun r => rfl, ?_, ?_, ?_, ?_⟩
  · intro r
    unfold renderMaterials
    cases hm : r.materials with
    | none => simp
    | some l => cases l <;> simp
  · intro r
    unfold renderStructuralComponents
    cases hm : r.structural_components with
    | none => simp
    | some l => cases l <;> simp
  · intro r
    unfold renderRecommendations
    cases hm : r.recommendations with
    | none => simp
    | some l => cases l <;> simp
  · intro r
    unfold renderProjectProgress
    cases hm : r.project_progress with
    | none => simp
    | some p => simp

end CivilInsight
